import Mathlib

/-!
# Verification of the Tenaxis ERP authorization and service-layer core

A shallow embedding, in Lean 4, of the permission matrix and the
tenant-scoped service layer of the Tenaxis ERP front-end, together with
proofs of the behavioural properties stated in its specification.

The embedding follows the TypeScript source:

* `src/lib/permissions.ts` — the role/module/action permission matrix and
  its pure query functions (`hasPermission`, `canAccessModule`,
  `getAccessibleModules`, `getAssignableRoles`);
* `src/services/base.service.ts` — the tenant-scoped repository base class
  (`BaseService`), its precondition on `setTenant`, and its query
  assembly (`getAll`, `getPaginated`, `batchWrite`, ...);
* `src/services/audit.service.ts` — the append-only audit log service;
* `src/services/asset.service.ts` — asset transfer;
* `src/services/maintenance.service.ts` — maintenance ticket transitions;
* the consumable stock service — stock issue and transfer.

Object literals become association lists (`List (String × ...)`) queried
with `List.lookup`; `Record` lookups that may miss return `Option`;
thrown exceptions become `Except String`; Firestore `Timestamp`s become
`Nat`.
-/

namespace Tenaxis

/-! ## Permission matrix (`src/lib/permissions.ts`) -/

/-- `ALL_ACTIONS` from `permissions.ts:54`. -/
def ALL_ACTIONS : List String := ["create", "read", "update", "delete", "export"]

/-- `READ_ONLY` from `permissions.ts:55`. -/
def READ_ONLY : List String := ["read", "export"]

/-- `READ_CREATE_UPDATE` from `permissions.ts:56`. -/
def READ_CREATE_UPDATE : List String := ["create", "read", "update"]

/-- The `SUPER_ADMIN` row of `ROLE_PERMISSIONS` (`permissions.ts:60`). -/
def superAdminPerms : List (String × List String) :=
  [("dashboard", ALL_ACTIONS), ("assets", ALL_ACTIONS), ("consumables", ALL_ACTIONS),
   ("maintenance", ALL_ACTIONS), ("projects", ALL_ACTIONS), ("organizations", ALL_ACTIONS),
   ("companies", ALL_ACTIONS), ("offices", ALL_ACTIONS), ("departments", ALL_ACTIONS),
   ("users", ALL_ACTIONS), ("vendors", ALL_ACTIONS), ("reports", ALL_ACTIONS),
   ("audit_logs", ["read", "export"]), ("settings", ALL_ACTIONS)]

/-- The `TENANT_ADMIN` row of `ROLE_PERMISSIONS` (`permissions.ts:78`). -/
def tenantAdminPerms : List (String × List String) :=
  [("dashboard", ALL_ACTIONS), ("assets", ALL_ACTIONS), ("consumables", ALL_ACTIONS),
   ("maintenance", ALL_ACTIONS), ("projects", ALL_ACTIONS), ("organizations", ALL_ACTIONS),
   ("companies", ALL_ACTIONS), ("offices", ALL_ACTIONS), ("departments", ALL_ACTIONS),
   ("users", ALL_ACTIONS), ("vendors", ALL_ACTIONS), ("reports", ALL_ACTIONS),
   ("audit_logs", ["read", "export"]), ("settings", ALL_ACTIONS)]

/-- The `ORG_ADMIN` row of `ROLE_PERMISSIONS` (`permissions.ts:96`). -/
def orgAdminPerms : List (String × List String) :=
  [("dashboard", ["read"]), ("assets", ALL_ACTIONS), ("consumables", ALL_ACTIONS),
   ("maintenance", ALL_ACTIONS), ("projects", ALL_ACTIONS),
   ("organizations", ["read", "update"]), ("companies", ALL_ACTIONS),
   ("offices", ALL_ACTIONS), ("departments", ALL_ACTIONS), ("users", ALL_ACTIONS),
   ("vendors", ALL_ACTIONS), ("reports", ["read", "export"]),
   ("audit_logs", ["read"]), ("settings", ["read", "update"])]

/-- The `IT_ADMIN` row of `ROLE_PERMISSIONS` (`permissions.ts:114`). -/
def itAdminPerms : List (String × List String) :=
  [("dashboard", ["read"]), ("assets", ALL_ACTIONS), ("consumables", ALL_ACTIONS),
   ("maintenance", ALL_ACTIONS), ("projects", READ_CREATE_UPDATE),
   ("organizations", ["read"]), ("companies", ["read"]), ("offices", ["read"]),
   ("departments", ["read"]), ("users", ["read"]), ("vendors", READ_CREATE_UPDATE),
   ("reports", ["read", "export"]), ("audit_logs", ["read"]), ("settings", ["read"])]

/-- The `IT_TECHNICIAN` row of `ROLE_PERMISSIONS` (`permissions.ts:132`). -/
def itTechnicianPerms : List (String × List String) :=
  [("dashboard", ["read"]), ("assets", READ_CREATE_UPDATE),
   ("consumables", ["read", "update"]), ("maintenance", READ_CREATE_UPDATE),
   ("projects", ["read"]), ("organizations", ["read"]), ("companies", ["read"]),
   ("offices", ["read"]), ("departments", ["read"]), ("users", ["read"]),
   ("vendors", ["read"]), ("reports", ["read"]), ("audit_logs", []), ("settings", [])]

/-- The `OFFICE_ADMIN` row of `ROLE_PERMISSIONS` (`permissions.ts:150`). -/
def officeAdminPerms : List (String × List String) :=
  [("dashboard", ["read"]), ("assets", ["read", "update"]),
   ("consumables", READ_CREATE_UPDATE), ("maintenance", READ_CREATE_UPDATE),
   ("projects", ["read"]), ("organizations", ["read"]), ("companies", ["read"]),
   ("offices", ["read", "update"]), ("departments", READ_CREATE_UPDATE),
   ("users", ["read"]), ("vendors", ["read"]), ("reports", ["read", "export"]),
   ("audit_logs", []), ("settings", ["read"])]

/-- The `FINANCE` row of `ROLE_PERMISSIONS` (`permissions.ts:168`). -/
def financePerms : List (String × List String) :=
  [("dashboard", ["read"]), ("assets", ["read", "export"]),
   ("consumables", ["read", "export"]), ("maintenance", ["read", "export"]),
   ("projects", ["read", "export"]), ("organizations", ["read"]),
   ("companies", ["read"]), ("offices", ["read"]), ("departments", ["read"]),
   ("users", ["read"]), ("vendors", ["read", "export"]),
   ("reports", ["read", "export"]), ("audit_logs", ["read"]), ("settings", [])]

/-- The `MANAGEMENT` row of `ROLE_PERMISSIONS` (`permissions.ts:186`). -/
def managementPerms : List (String × List String) :=
  [("dashboard", ["read"]), ("assets", READ_ONLY), ("consumables", READ_ONLY),
   ("maintenance", READ_ONLY), ("projects", READ_ONLY), ("organizations", ["read"]),
   ("companies", ["read"]), ("offices", ["read"]), ("departments", ["read"]),
   ("users", ["read"]), ("vendors", ["read"]), ("reports", ["read", "export"]),
   ("audit_logs", ["read"]), ("settings", [])]

/-- `ROLE_PERMISSIONS` (`permissions.ts:58`): the object literal keyed by
role, each value an object literal keyed by module, embedded as nested
association lists. -/
def ROLE_PERMISSIONS : List (String × List (String × List String)) :=
  [("SUPER_ADMIN", superAdminPerms), ("TENANT_ADMIN", tenantAdminPerms),
   ("ORG_ADMIN", orgAdminPerms), ("IT_ADMIN", itAdminPerms),
   ("IT_TECHNICIAN", itTechnicianPerms), ("OFFICE_ADMIN", officeAdminPerms),
   ("FINANCE", financePerms), ("MANAGEMENT", managementPerms)]

/-- `hasPermission` (`permissions.ts:211`): look up the role, then the
module, then test `modulePermissions.includes(action)`; either missing
lookup returns `false`. -/
def hasPermission (role module action : String) : Bool :=
  match ROLE_PERMISSIONS.lookup role with
  | none => false
  | some rolePermissions =>
    match rolePermissions.lookup module with
    | none => false
    | some modulePermissions => modulePermissions.contains action

/-- `canAccessModule` (`permissions.ts:228`). -/
def canAccessModule (role module : String) : Bool :=
  hasPermission role module "read"

/-- `getAccessibleModules` (`permissions.ts:248`): the modules of the
role's row whose action list includes `"read"`. -/
def getAccessibleModules (role : String) : List String :=
  match ROLE_PERMISSIONS.lookup role with
  | none => []
  | some rolePerms =>
    (rolePerms.filter (fun p => p.snd.contains "read")).map Prod.fst

/-- `roleHierarchy` from `getAssignableRoles` (`permissions.ts:302`). -/
def roleHierarchy : List String :=
  ["SUPER_ADMIN", "TENANT_ADMIN", "ORG_ADMIN", "IT_ADMIN",
   "OFFICE_ADMIN", "IT_TECHNICIAN", "FINANCE", "MANAGEMENT"]

/-- JavaScript `Array.prototype.indexOf`: the first index of `a`, or `-1`
when absent. -/
def indexOfStr : List String → String → Int
  | [], _ => -1
  | x :: xs, a =>
    if x = a then 0
    else
      let r := indexOfStr xs a
      if r = -1 then -1 else r + 1

/-- `getAssignableRoles` (`permissions.ts:301`): `-1` means fail closed;
index `0` or `1` (the top two ranks) gets the hierarchy minus
`SUPER_ADMIN`; otherwise everything strictly below the index. -/
def getAssignableRoles (currentUserRole : String) : List String :=
  let currentIndex := indexOfStr roleHierarchy currentUserRole
  if currentIndex = -1 then []
  else if currentIndex ≤ 1 then roleHierarchy.drop 1
  else roleHierarchy.drop (currentIndex.toNat + 1)

/-! ## Tenant-scoped repository base (`src/services/base.service.ts`)

The document store is the external collaborator: a list of documents held
in the store's default order (document-ID order), supporting equality
filters, single-field sort, and limit — exactly the contract in §6 of the
specification.  Timestamps are `Nat`, documents carry their audit
`created_at` directly and all other data as string fields. -/

/-- A Firestore document of one tenant-scoped collection. -/
structure StoredDoc where
  docId : String
  created_at : Nat
  fields : List (String × String)
deriving DecidableEq

/-- Firestore `QueryConstraint`s the services build: `where(f, '==', v)`,
`orderBy(f, dir)` and `limit(n)`. -/
inductive QueryConstraint where
  | whereEq (field value : String)
  | orderByField (field dir : String)
  | limitTo (n : Nat)
deriving DecidableEq

/-- Does a document satisfy one equality filter? -/
def fieldEq (d : StoredDoc) (f v : String) : Bool :=
  if f = "created_at" then toString d.created_at == v
  else d.fields.lookup f == some v

/-- Does a document pass every `where` filter of a constraint list? -/
def satisfiesFilters (cs : List QueryConstraint) (d : StoredDoc) : Bool :=
  cs.all fun c =>
    match c with
    | .whereEq f v => fieldEq d f v
    | _ => true

/-- Ascending comparison on a single sort field: numeric on `created_at`,
lexicographic on any other field. -/
def keyLeAsc (f : String) (a b : StoredDoc) : Bool :=
  if f = "created_at" then a.created_at ≤ b.created_at
  else decide (((a.fields.lookup f).getD "") ≤ ((b.fields.lookup f).getD ""))

/-- Document comparison for `orderBy(f, dir)`: `desc` flips the ascending
order. -/
def docLe (f dir : String) (a b : StoredDoc) : Bool :=
  if dir = "desc" then keyLeAsc f b a else keyLeAsc f a b

/-- The sort field of a constraint, if it is an `orderBy`. -/
def orderKey : QueryConstraint → Option (String × String)
  | .orderByField f dir => some (f, dir)
  | _ => none

/-- The limit of a constraint, if it is a `limit`. -/
def limitKey : QueryConstraint → Option Nat
  | .limitTo n => some n
  | _ => none

/-- Sort a result set by the constraints' `orderBy` field, if any;
without an `orderBy`, documents stay in the store's default document-ID
order. -/
def applyOrder (cs : List QueryConstraint) (l : List StoredDoc) : List StoredDoc :=
  match cs.filterMap orderKey with
  | [] => l
  | (f, dir) :: _ => List.insertionSort (fun a b => docLe f dir a b = true) l

/-- Truncate a result set to the constraints' `limit`, if any. -/
def applyLimit (cs : List QueryConstraint) (l : List StoredDoc) : List StoredDoc :=
  match cs.filterMap limitKey with
  | [] => l
  | n :: _ => l.take n

/-- The store's query engine (external collaborator, §6): filter, then
sort by the (single) `orderBy` field — documents stay in default
document-ID order when no `orderBy` is present — then apply the limit. -/
def evalQuery (docs : List StoredDoc) (cs : List QueryConstraint) : List StoredDoc :=
  applyLimit cs (applyOrder cs (docs.filter (satisfiesFilters cs)))

/-- `QueryParams` (`src/types`): page, page size, optional sort
`(field, direction)`. -/
structure QueryParams where
  page : Option Nat := none
  page_size : Option Nat := none
  sort : Option (String × String) := none

/-- `PaginatedResponse` (`src/types`). -/
structure PaginatedResponse where
  data : List StoredDoc
  total : Nat
  page : Nat
  page_size : Nat
  has_more : Bool

/-- The state of one `BaseService` instance: its bound tenant (if
`setTenant` has been called), the documents of its collection, and a
counter supplying fresh document ids. -/
structure BaseState where
  tenantId : Option String := none
  docs : List StoredDoc := []
  nextId : Nat := 0
deriving DecidableEq

/-- The configuration error thrown by `BaseService.getCollectionRef`
(`base.service.ts:432`). -/
def tenantConfigError : String := "Tenant ID must be set before performing operations"

/-- `setTenant` (`base.service.ts:423`). -/
def BaseState.setTenant (s : BaseState) (t : String) : BaseState :=
  { s with tenantId := some t }

/-- Overwrite or append one field of a document's field list
(Firestore merge semantics of `updateDoc`). -/
def setField (fs : List (String × String)) (kv : String × String) : List (String × String) :=
  if (fs.lookup kv.1).isSome then
    fs.map fun p => if p.1 = kv.1 then kv else p
  else fs ++ [kv]

/-- Merge updated fields into existing fields, updates winning. -/
def mergeFields (old upd : List (String × String)) : List (String × String) :=
  upd.foldl setField old

/-- `addAuditFields` (`base.service.ts:447`) for a new document: data plus
`tenant_id`, `created_by`, `updated_at`, `updated_by` (the `created_at`
timestamp lives in `StoredDoc.created_at`). -/
def auditFieldsNew (data : List (String × String)) (tid uid : String) (now : Nat) :
    List (String × String) :=
  data ++ [("tenant_id", tid), ("created_by", uid),
           ("updated_at", toString now), ("updated_by", uid)]

/-- `addAuditFields` for an update: data plus `updated_at`, `updated_by`. -/
def auditFieldsUpd (data : List (String × String)) (uid : String) (now : Nat) :
    List (String × String) :=
  data ++ [("updated_at", toString now), ("updated_by", uid)]

/-- `getById` (`base.service.ts:475`): configuration error without a
tenant; otherwise the document, or `none` when absent (never an error). -/
def BaseState.getById (s : BaseState) (id : String) : Except String (Option StoredDoc) :=
  match s.tenantId with
  | none => .error tenantConfigError
  | some _ => .ok (s.docs.find? fun d => d.docId == id)

/-- `getAll` (`base.service.ts:489`): issues the caller's constraints
verbatim — no constraint is added. -/
def BaseState.getAll (s : BaseState) (cs : List QueryConstraint) :
    Except String (List StoredDoc) :=
  match s.tenantId with
  | none => .error tenantConfigError
  | some _ => .ok (evalQuery s.docs cs)

/-- `getPaginated` (`base.service.ts:503`): appends the requested sort, or
`orderBy('created_at', 'desc')` when `params.sort` is absent, then
`limit(page_size + 1)`; returns one page and a has-more flag. -/
def BaseState.getPaginated (s : BaseState) (params : QueryParams)
    (additionalConstraints : List QueryConstraint) : Except String PaginatedResponse :=
  let page := params.page.getD 1
  let pageSize := params.page_size.getD 25
  let constraints := additionalConstraints ++
    (match params.sort with
     | some (f, dir) => [.orderByField f dir]
     | none => [.orderByField "created_at" "desc"]) ++
    [.limitTo (pageSize + 1)]
  match s.tenantId with
  | none => .error tenantConfigError
  | some _ =>
    let snapshot := evalQuery s.docs constraints
    .ok { data := snapshot.take pageSize, total := 0, page := page,
          page_size := pageSize, has_more := decide (snapshot.length > pageSize) }

/-- `create` (`base.service.ts:540`): audit-stamp the data, then `addDoc`
into the tenant collection (whose resolution is what can fail). -/
def BaseState.create (s : BaseState) (data : List (String × String)) (userId : String)
    (now : Nat) : Except String (StoredDoc × BaseState) :=
  match s.tenantId with
  | none => .error tenantConfigError
  | some t =>
    let d : StoredDoc :=
      { docId := "doc" ++ toString s.nextId, created_at := now,
        fields := auditFieldsNew data t userId now }
    .ok (d, { s with docs := s.docs ++ [d], nextId := s.nextId + 1 })

/-- `update` (`base.service.ts:550`): audit-stamp and merge into the
stored document. -/
def BaseState.update (s : BaseState) (id : String) (data : List (String × String))
    (userId : String) (now : Nat) : Except String BaseState :=
  match s.tenantId with
  | none => .error tenantConfigError
  | some _ =>
    .ok { s with
          docs := s.docs.map fun d =>
            if d.docId = id then
              { d with fields := mergeFields d.fields (auditFieldsUpd data userId now) }
            else d }

/-- `delete` (`base.service.ts:559`): hard delete. -/
def BaseState.delete (s : BaseState) (id : String) : Except String BaseState :=
  match s.tenantId with
  | none => .error tenantConfigError
  | some _ => .ok { s with docs := s.docs.filter fun d => ¬ (d.docId = id) }

/-- One element of the operation list accepted by `batchWrite`
(`base.service.ts:567`). -/
structure BatchOp where
  type : String
  id : Option String := none
  data : Option (List (String × String)) := none
  userId : Option String := none

/-- A write queued on the batch before commit. -/
inductive PendingWrite where
  | setDoc (d : StoredDoc)
  | updateFields (id : String) (fields : List (String × String))
  | deleteDoc (id : String)

/-- The loop body of `batchWrite`: each operation whose guards hold
resolves a document reference — which throws the configuration error when
no tenant is bound — and queues a write; operations failing their guards
are skipped silently. Returns the queued writes and the next fresh-id
counter. -/
def buildBatch (tid : Option String) (now : Nat) :
    Nat → List BatchOp → Except String (List PendingWrite × Nat)
  | n, [] => .ok ([], n)
  | n, op :: rest =>
    if op.type = "create" then
      match op.data, op.userId with
      | some d, some u =>
        match tid with
        | none => .error tenantConfigError
        | some t =>
          match buildBatch tid now (n + 1) rest with
          | .error e => .error e
          | .ok (ws, n') =>
            .ok (.setDoc { docId := "doc" ++ toString n, created_at := now,
                           fields := auditFieldsNew d t u now } :: ws, n')
      | _, _ => buildBatch tid now n rest
    else if op.type = "update" then
      match op.id, op.data, op.userId with
      | some i, some d, some u =>
        match tid with
        | none => .error tenantConfigError
        | some _ =>
          match buildBatch tid now n rest with
          | .error e => .error e
          | .ok (ws, n') => .ok (.updateFields i (auditFieldsUpd d u now) :: ws, n')
      | _, _, _ => buildBatch tid now n rest
    else if op.type = "delete" then
      match op.id with
      | some i =>
        match tid with
        | none => .error tenantConfigError
        | some _ =>
          match buildBatch tid now n rest with
          | .error e => .error e
          | .ok (ws, n') => .ok (.deleteDoc i :: ws, n')
      | none => buildBatch tid now n rest
    else buildBatch tid now n rest

/-- Apply one queued write to the store (the effect of `batch.commit`). -/
def applyWrite (docs : List StoredDoc) : PendingWrite → List StoredDoc
  | .setDoc d => docs ++ [d]
  | .updateFields i f =>
    docs.map fun d => if d.docId = i then { d with fields := mergeFields d.fields f } else d
  | .deleteDoc i => docs.filter fun d => ¬ (d.docId = i)

/-- `batchWrite` (`base.service.ts:567`): queue all writes, then commit
atomically — all of them land, or an error leaves the store untouched. -/
def BaseState.batchWrite (s : BaseState) (operations : List BatchOp) (now : Nat) :
    Except String BaseState :=
  match buildBatch s.tenantId now s.nextId operations with
  | .error e => .error e
  | .ok (ws, n') => .ok { s with docs := ws.foldl applyWrite s.docs, nextId := n' }

/-- Does `batchWrite` actually queue a write for this operation (all of
the guards of its `type` hold)? -/
def BatchOp.effective (op : BatchOp) : Bool :=
  (op.type == "create" && op.data.isSome && op.userId.isSome) ||
  (op.type == "update" && op.id.isSome && op.data.isSome && op.userId.isSome) ||
  (op.type == "delete" && op.id.isSome)

/-! ## Audit log service (`src/services/audit.service.ts`) -/

/-- One field-level change recorded in an audit entry. -/
structure AuditChange where
  field : String
  old_value : String
  new_value : String
deriving DecidableEq

/-- `AuditLog` (`src/types`): one immutable audit record. -/
structure AuditEntry where
  tenant_id : Option String
  organization_id : String
  action : String
  module : String
  entity_type : String
  entity_id : String
  entity_name : Option String
  description : String
  changes : Option (List AuditChange)
  user_id : String
  user_email : String
  user_name : String
  ip_address : Option String
  user_agent : Option String
  created_at : Nat
deriving DecidableEq

/-- The parameter object of `AuditLogService.log` (`audit.service.ts:48`). -/
structure LogParams where
  action : String
  module : String
  entityType : String
  entityId : String
  entityName : Option String := none
  description : String
  changes : Option (List AuditChange) := none
  userId : String
  userEmail : String
  userName : String
  organizationId : String
  ipAddress : Option String := none
  userAgent : Option String := none

/-- The state of the `AuditLogService` singleton: the bound tenant and the
audit-log collection, in insertion order. -/
structure AuditState where
  tenantId : Option String := none
  logs : List AuditEntry := []

/-- `AuditLogService.log` (`audit.service.ts:48`): build the record and
`addDoc` it; resolving the collection throws when no tenant is bound. -/
def AuditState.log (s : AuditState) (p : LogParams) (now : Nat) : Except String AuditState :=
  match s.tenantId with
  | none => .error "Tenant ID must be set"
  | some t =>
    .ok { s with logs := s.logs ++
      [{ tenant_id := some t, organization_id := p.organizationId, action := p.action,
         module := p.module, entity_type := p.entityType, entity_id := p.entityId,
         entity_name := p.entityName, description := p.description, changes := p.changes,
         user_id := p.userId, user_email := p.userEmail, user_name := p.userName,
         ip_address := p.ipAddress, user_agent := p.userAgent, created_at := now }] }

/-- The operations of `AuditLogService`, each carrying the arguments of
the corresponding method (`logCreate`, `logUpdate`, ..., all of which
delegate to `log`; the `get*` methods only query). -/
inductive AuditOp where
  | setTenant (t : String)
  | log (p : LogParams) (now : Nat)
  | logCreate (module entityType entityId entityName : String)
      (userId userEmail userName organizationId : String) (now : Nat)
  | logUpdate (module entityType entityId entityName : String)
      (changes : List AuditChange)
      (userId userEmail userName organizationId : String) (now : Nat)
  | logDelete (module entityType entityId entityName : String)
      (userId userEmail userName organizationId : String) (now : Nat)
  | logAssign (entityType entityId entityName assignedTo : String)
      (userId userEmail userName organizationId : String) (now : Nat)
  | logTransfer (entityType entityId entityName fromOffice toOffice : String)
      (userId userEmail userName organizationId : String) (now : Nat)
  | logLogin (userId userEmail userName organizationId : String)
      (ipAddress userAgent : Option String) (now : Nat)
  | logLogout (userId userEmail userName organizationId : String) (now : Nat)
  | logExport (module exportType : String) (recordCount : Nat)
      (userId userEmail userName organizationId : String) (now : Nat)
  | getLogs (params : QueryParams)
  | getEntityLogs (entityType entityId : String)
  | getUserActivity (userId : String) (days : Nat)

/-- One step of the audit log service: every `log*` method delegates to
`log` with its specific parameter record (`audit.service.ts:87-283`); a
thrown error leaves the collection as it was; the `get*` methods read
without writing. -/
def AuditState.step (s : AuditState) : AuditOp → AuditState
  | .setTenant t => { s with tenantId := some t }
  | .log p now => ((s.log p now).toOption).getD s
  | .logCreate m et eid en uid uem unm org now =>
    ((s.log { action := "create", module := m, entityType := et, entityId := eid,
              entityName := some en,
              description := "Created " ++ et ++ ": " ++ en,
              userId := uid, userEmail := uem, userName := unm,
              organizationId := org } now).toOption).getD s
  | .logUpdate m et eid en chs uid uem unm org now =>
    ((s.log { action := "update", module := m, entityType := et, entityId := eid,
              entityName := some en,
              description := "Updated " ++ et ++ ": " ++ en ++ " (fields: " ++
                String.intercalate ", " (chs.map AuditChange.field) ++ ")",
              changes := some chs,
              userId := uid, userEmail := uem, userName := unm,
              organizationId := org } now).toOption).getD s
  | .logDelete m et eid en uid uem unm org now =>
    ((s.log { action := "delete", module := m, entityType := et, entityId := eid,
              entityName := some en,
              description := "Deleted " ++ et ++ ": " ++ en,
              userId := uid, userEmail := uem, userName := unm,
              organizationId := org } now).toOption).getD s
  | .logAssign et eid en assignedTo uid uem unm org now =>
    ((s.log { action := "assign", module := "assets", entityType := et, entityId := eid,
              entityName := some en,
              description := "Assigned " ++ et ++ ": " ++ en ++ " to " ++ assignedTo,
              userId := uid, userEmail := uem, userName := unm,
              organizationId := org } now).toOption).getD s
  | .logTransfer et eid en fromOffice toOffice uid uem unm org now =>
    ((s.log { action := "transfer", module := "assets", entityType := et, entityId := eid,
              entityName := some en,
              description := "Transferred " ++ et ++ ": " ++ en ++ " from " ++
                fromOffice ++ " to " ++ toOffice,
              changes := some [{ field := "office", old_value := fromOffice,
                                 new_value := toOffice }],
              userId := uid, userEmail := uem, userName := unm,
              organizationId := org } now).toOption).getD s
  | .logLogin uid uem unm org ip ua now =>
    ((s.log { action := "login", module := "auth", entityType := "user", entityId := uid,
              entityName := some unm,
              description := "User logged in: " ++ uem,
              userId := uid, userEmail := uem, userName := unm,
              organizationId := org, ipAddress := ip, userAgent := ua } now).toOption).getD s
  | .logLogout uid uem unm org now =>
    ((s.log { action := "logout", module := "auth", entityType := "user", entityId := uid,
              entityName := some unm,
              description := "User logged out: " ++ uem,
              userId := uid, userEmail := uem, userName := unm,
              organizationId := org } now).toOption).getD s
  | .logExport m et count uid uem unm org now =>
    ((s.log { action := "export", module := m, entityType := et, entityId := "-",
              description := "Exported " ++ toString count ++ " " ++ et ++
                " records from " ++ m,
              userId := uid, userEmail := uem, userName := unm,
              organizationId := org } now).toOption).getD s
  | .getLogs _ => s
  | .getEntityLogs _ _ => s
  | .getUserActivity _ _ => s

/-- Run a sequence of audit-service operations. -/
def AuditState.run (s : AuditState) (ops : List AuditOp) : AuditState :=
  ops.foldl AuditState.step s

/-! ## Asset service (`src/services/asset.service.ts`) -/

/-- The slice of `Asset` (`src/types`) touched by assignment, transfer
and disposal. -/
structure Asset where
  id : String
  office_id : String
  status : String
  assigned_to : Option String := none
  assigned_at : Option Nat := none
  updated_at : Nat := 0
  updated_by : String := ""
deriving DecidableEq

/-- `AssetEvent` (`src/types`): one entry of an asset's history. -/
structure AssetEvent where
  asset_id : String
  event_type : String
  description : String
  from_office_id : Option String := none
  to_office_id : Option String := none
  from_user_id : Option String := none
  to_user_id : Option String := none
  created_at : Nat
  created_by : String
deriving DecidableEq

/-- The state of the `AssetService` singleton: bound tenant, asset
collection, and the asset-events subcollection (flattened, keyed by
`asset_id`). -/
structure AssetState where
  tenantId : Option String := none
  assets : List Asset := []
  events : List AssetEvent := []

/-- `getById` specialised to assets: first document with the given id. -/
def AssetState.findAsset (s : AssetState) (assetId : String) : Option Asset :=
  s.assets.find? fun a => a.id = assetId

/-- `AssetService.transferToOffice` (`asset.service.ts:244`): tenant
check, point read of the asset ("Asset not found" when absent), then one
atomic batch that rewrites the asset — new office, assignment cleared,
status `available` — and appends the `transferred` event recording the
old and new office. -/
def AssetState.transferToOffice (s : AssetState) (assetId toOfficeId transferredBy : String)
    (notes : Option String) (now : Nat) : Except String AssetState :=
  match s.tenantId with
  | none => .error "Tenant ID must be set"
  | some _ =>
    match s.findAsset assetId with
    | none => .error "Asset not found"
    | some asset =>
      let fromOfficeId := asset.office_id
      .ok { s with
            assets := s.assets.map fun a =>
              if a.id = assetId then
                { a with office_id := toOfficeId, assigned_to := none,
                         assigned_at := none, status := "available",
                         updated_at := now, updated_by := transferredBy }
              else a,
            events := s.events ++
              [{ asset_id := assetId, event_type := "transferred",
                 description := notes.getD "Asset transferred to another office",
                 from_office_id := some fromOfficeId, to_office_id := some toOfficeId,
                 created_at := now, created_by := transferredBy }] }

/-! ## Maintenance service (`src/services/maintenance.service.ts`) -/

/-- The slice of `MaintenanceTicket` (`src/types`) touched by the status
transitions. -/
structure Ticket where
  id : String
  status : String
  assigned_to : Option String := none
  assigned_at : Option Nat := none
  started_at : Option Nat := none
  completed_at : Option Nat := none
  resolution_notes : Option String := none
  updated_at : Nat := 0
  updated_by : String := ""
deriving DecidableEq

/-- `MaintenanceService.assign` (`maintenance.service.ts:133`): merges
`assigned_to`, `assigned_at` and `status: 'in_progress'` into the ticket
(via `BaseService.update`, which also stamps the audit fields). -/
def Ticket.assign (t : Ticket) (technicianId assignedBy : String) (now : Nat) : Ticket :=
  { t with assigned_to := some technicianId, assigned_at := some now,
           status := "in_progress", updated_at := now, updated_by := assignedBy }

/-- `MaintenanceService.startWork` (`maintenance.service.ts:152`): merges
`status: 'in_progress'` and `started_at`. -/
def Ticket.startWork (t : Ticket) (userId : String) (now : Nat) : Ticket :=
  { t with status := "in_progress", started_at := some now,
           updated_at := now, updated_by := userId }

/-- `MaintenanceService.complete` (`maintenance.service.ts:173`): merges
`status: 'completed'`, `completed_at` and the resolution notes. -/
def Ticket.complete (t : Ticket) (resolutionNotes : String) (userId : String)
    (now : Nat) : Ticket :=
  { t with status := "completed", completed_at := some now,
           resolution_notes := some resolutionNotes,
           updated_at := now, updated_by := userId }

/-! ## Consumable stock service (`src/unnamed/part_007`, `StockService`) -/

/-- `OfficeStock` (`src/types`): the tracked balance of one consumable in
one office. -/
structure OfficeStock where
  id : String
  office_id : String
  consumable_id : String
  quantity : Int
  last_restocked : Option Nat := none
  last_issued : Option Nat := none
  updated_at : Option Nat := none
deriving DecidableEq

/-- `StockTransaction` (`src/types`): one immutable stock movement. -/
structure StockTxn where
  office_id : String
  consumable_id : String
  type : String
  quantity : Int
  issued_to : Option String := none
  transferred_to_office : Option String := none
  transferred_from_office : Option String := none
  notes : Option String := none
  created_at : Nat
  created_by : String
deriving DecidableEq

/-- The state of the `StockService` singleton: bound tenant, the
office-stock collection, the stock-transaction collection, and a fresh-id
counter for new stock documents. -/
structure StockState where
  tenantId : Option String := none
  stocks : List OfficeStock := []
  txns : List StockTxn := []
  nextId : Nat := 0

/-- `getConsumableStock` (`part_007`): the first stock document matching
both the office and the consumable, or `none`. -/
def StockState.getConsumableStock (s : StockState) (officeId consumableId : String) :
    Option OfficeStock :=
  s.stocks.find? fun st => st.office_id = officeId ∧ st.consumable_id = consumableId

/-- `StockService.issue` (`part_007:233`): tenant check; reject with
`Insufficient stock` when no stock document exists or the balance is
below the requested quantity; otherwise one atomic batch decrements the
balance and appends the `issue` transaction. -/
def StockState.issue (s : StockState) (officeId consumableId : String) (quantity : Int)
    (issuedTo userId : String) (notes : Option String) (now : Nat) :
    Except String StockState :=
  match s.tenantId with
  | none => .error "Tenant ID must be set"
  | some _t =>
    match s.getConsumableStock officeId consumableId with
    | none => .error "Insufficient stock"
    | some existingStock =>
      if existingStock.quantity < quantity then .error "Insufficient stock"
      else
        .ok { s with
              stocks := s.stocks.map fun st =>
                if st.id = existingStock.id then
                  { st with quantity := st.quantity - quantity,
                            last_issued := some now, updated_at := some now }
                else st,
              txns := s.txns ++
                [{ office_id := officeId, consumable_id := consumableId, type := "issue",
                   quantity := quantity, issued_to := some issuedTo, notes := notes,
                   created_at := now, created_by := userId }] }

/-- `StockService.transfer` (`part_007:280`): tenant check; reject with
`Insufficient stock in source office` when the source office has no stock
document or its balance is below the quantity; otherwise one atomic batch
decrements the source, increments (or creates) the destination, and
appends the `transfer_out` and `transfer_in` transactions. -/
def StockState.transfer (s : StockState) (fromOfficeId toOfficeId consumableId : String)
    (quantity : Int) (userId : String) (notes : Option String) (now : Nat) :
    Except String StockState :=
  match s.tenantId with
  | none => .error "Tenant ID must be set"
  | some _t =>
    match s.getConsumableStock fromOfficeId consumableId with
    | none => .error "Insufficient stock in source office"
    | some sourceStock =>
      if sourceStock.quantity < quantity then .error "Insufficient stock in source office"
      else
        let decremented := s.stocks.map fun st =>
          if st.id = sourceStock.id then
            { st with quantity := st.quantity - quantity, updated_at := some now }
          else st
        let stocks' :=
          match s.getConsumableStock toOfficeId consumableId with
          | some destStock =>
            decremented.map fun st =>
              if st.id = destStock.id then
                { st with quantity := st.quantity + quantity, updated_at := some now }
              else st
          | none =>
            decremented ++
              [{ id := "stock" ++ toString s.nextId, office_id := toOfficeId,
                 consumable_id := consumableId, quantity := quantity,
                 updated_at := some now }]
        .ok { s with
              stocks := stocks',
              nextId := s.nextId + 1,
              txns := s.txns ++
                [{ office_id := fromOfficeId, consumable_id := consumableId,
                   type := "transfer_out", quantity := quantity,
                   transferred_to_office := some toOfficeId, notes := notes,
                   created_at := now, created_by := userId },
                 { office_id := toOfficeId, consumable_id := consumableId,
                   type := "transfer_in", quantity := quantity,
                   transferred_from_office := some fromOfficeId, notes := notes,
                   created_at := now, created_by := userId }] }

/-! ## Concrete states used by witnesses and counterexamples -/

/-- A fresh repository on which `setTenant` has never been called. -/
def noTenantState : BaseState := { tenantId := none, docs := [], nextId := 0 }

/-- A store document created at time 1 whose id sorts first. -/
def docA : StoredDoc := { docId := "a", created_at := 1, fields := [] }

/-- A store document created later, at time 2. -/
def docB : StoredDoc := { docId := "b", created_at := 2, fields := [] }

/-- A tenant-bound repository holding `docA` before `docB` in the store's
default document-ID order. -/
def twoDocState : BaseState := { tenantId := some "t", docs := [docA, docB], nextId := 0 }

/-- A tenant-bound stock service with a single balance of 5 units of
consumable `c1` in office `o1`. -/
def stockStateW : StockState :=
  { tenantId := some "t",
    stocks := [{ id := "s1", office_id := "o1", consumable_id := "c1", quantity := 5 }],
    txns := [], nextId := 0 }

/-- A tenant-bound asset service with one asset assigned to a user. -/
def assetStateW : AssetState :=
  { tenantId := some "t",
    assets := [{ id := "a1", office_id := "o1", status := "in_use",
                 assigned_to := some "u1", assigned_at := some 3 }],
    events := [] }

/-- `assetStateW` after `transferToOffice("a1", "o2", "admin")` at time 9. -/
def assetStateW' : AssetState :=
  { tenantId := some "t",
    assets := [{ id := "a1", office_id := "o2", status := "available",
                 assigned_to := none, assigned_at := none,
                 updated_at := 9, updated_by := "admin" }],
    events := [{ asset_id := "a1", event_type := "transferred",
                 description := "Asset transferred to another office",
                 from_office_id := some "o1", to_office_id := some "o2",
                 created_at := 9, created_by := "admin" }] }

/-- A freshly reported maintenance ticket: status `open`, no start time. -/
def openTicket : Ticket := { id := "t1", status := "open" }

/-! ## Association-list lemmas -/

/-- A successful `lookup` returns one of the list's values. -/
theorem lookup_mem_snd {β : Type} {l : List (String × β)} {a : String} {b : β}
    (h : l.lookup a = some b) : b ∈ l.map Prod.snd := by
  induction l with
  | nil => simp [List.lookup] at h
  | cons hd tl ih =>
    obtain ⟨k, v⟩ := hd
    simp only [List.lookup] at h
    by_cases hk : a == k
    · rw [hk] at h
      simp only [List.map, List.mem_cons]
      exact Or.inl (Option.some.inj h).symm
    · rw [Bool.not_eq_true] at hk
      rw [hk] at h
      exact List.mem_cons_of_mem _ (ih h)

/-- For an association list with distinct keys, a key survives filtering
by a predicate on the value exactly when its looked-up value satisfies
the predicate. -/
theorem mem_filter_map_fst_iff {β : Type} (q : β → Bool) :
    ∀ (l : List (String × β)), (l.map Prod.fst).Nodup → ∀ (a : String),
      (a ∈ (l.filter fun p => q p.snd).map Prod.fst ↔
        ∃ b, l.lookup a = some b ∧ q b = true) := by
  intro l
  induction l with
  | nil => intro _ a; simp [List.lookup]
  | cons hd tl ih =>
    intro hnd a
    obtain ⟨k, v⟩ := hd
    simp only [List.map, List.nodup_cons] at hnd
    obtain ⟨hk_not, hnd_tl⟩ := hnd
    by_cases hak : a = k
    · subst hak
      simp only [List.lookup, beq_self_eq_true]
      constructor
      · intro hmem
        refine ⟨v, rfl, ?_⟩
        by_cases hq : q v
        · exact hq
        · exfalso
          rw [List.filter_cons] at hmem
          simp only [hq] at hmem
          have hsub : a ∈ tl.map Prod.fst :=
            List.map_subset Prod.fst (List.filter_subset' tl) hmem
          exact hk_not hsub
      · intro ⟨b, hb, hq⟩
        have hvb : v = b := Option.some.inj hb
        subst hvb
        rw [List.filter_cons]
        simp only [hq]
        exact List.mem_cons_self _ _
    · have hbeq : (a == k) = false := by
        rw [beq_eq_false_iff_ne]; exact hak
      simp only [List.lookup, hbeq]
      rw [List.filter_cons]
      by_cases hq : q v
      · simp only [hq, if_true]
        rw [List.map_cons, List.mem_cons]
        constructor
        · intro h
          rcases h with h | h
          · exact absurd h hak
          · exact (ih hnd_tl a).mp h
        · intro h
          exact Or.inr ((ih hnd_tl a).mpr h)
      · simp only [hq]
        exact ih hnd_tl a

/-- Every row of the permission matrix has pairwise-distinct module
keys. -/
theorem matrix_rows_nodup :
    ∀ mp ∈ ROLE_PERMISSIONS.map Prod.snd, (mp.map Prod.fst).Nodup := by decide

/-- No action list anywhere in the matrix contains `assign`, `transfer`
or `approve`. -/
theorem matrix_no_special_actions :
    ∀ mp ∈ ROLE_PERMISSIONS.map Prod.snd, ∀ acts ∈ mp.map Prod.snd,
      acts.contains "assign" = false ∧ acts.contains "transfer" = false ∧
      acts.contains "approve" = false := by decide

/-- A string absent from a list has JavaScript index `-1`. -/
theorem indexOfStr_eq_neg_one {l : List String} {a : String} (h : a ∉ l) :
    indexOfStr l a = -1 := by
  induction l with
  | nil => rfl
  | cons x xs ih =>
    rw [List.mem_cons, not_or] at h
    rw [indexOfStr, if_neg (fun hx => h.1 hx.symm), ih h.2, if_pos rfl]

/-! ## Claim theorems: permission matrix -/

/-- **C1.** `hasPermission(role, module, action)` returns `true` iff
`ROLE_PERMISSIONS` has an entry for `(role, module)` whose action list
contains the action; in every other case — including a role or module
with no entry in the matrix — it returns `false` (it is a total function,
so it never throws: fail-closed deny). -/
theorem hasPermission_iff_matrix_entry (role module action : String) :
    hasPermission role module action = true ↔
      ∃ rolePerms acts, ROLE_PERMISSIONS.lookup role = some rolePerms ∧
        rolePerms.lookup module = some acts ∧ acts.contains action = true := by
  unfold hasPermission
  cases h1 : ROLE_PERMISSIONS.lookup role with
  | none => simp
  | some rolePerms =>
    cases h2 : rolePerms.lookup module with
    | none => simp [h2]
    | some acts => simp [h2]

/-- **C9.** `canAccessModule role module` coincides with
`hasPermission role module "read"`, and `getAccessibleModules role` holds
exactly the modules `canAccessModule` accepts. -/
theorem accessibleModules_spec :
    (∀ role module, canAccessModule role module = hasPermission role module "read") ∧
    (∀ role module, module ∈ getAccessibleModules role ↔
       canAccessModule role module = true) := by
  refine ⟨fun _ _ => rfl, fun role module => ?_⟩
  unfold getAccessibleModules canAccessModule hasPermission
  cases h1 : ROLE_PERMISSIONS.lookup role with
  | none => simp
  | some rolePerms =>
    have hnd : (rolePerms.map Prod.fst).Nodup :=
      matrix_rows_nodup rolePerms (lookup_mem_snd h1)
    rw [mem_filter_map_fst_iff (fun acts => acts.contains "read") rolePerms hnd module]
    cases h2 : rolePerms.lookup module with
    | none => simp [h2]
    | some acts => simp [h2]

/-- **C10.** No entry of the permission matrix grants `assign`,
`transfer` or `approve`, so `hasPermission` denies these three actions
for every role and module — `SUPER_ADMIN` included. -/
theorem hasPermission_special_actions_false (role module : String) :
    hasPermission role module "assign" = false ∧
    hasPermission role module "transfer" = false ∧
    hasPermission role module "approve" = false := by
  unfold hasPermission
  cases h1 : ROLE_PERMISSIONS.lookup role with
  | none => simp
  | some rolePerms =>
    cases h2 : rolePerms.lookup module with
    | none => simp [h2]
    | some acts =>
      simp only [h2]
      exact matrix_no_special_actions rolePerms (lookup_mem_snd h1)
        acts (lookup_mem_snd h2)

/-- **C4.** `getAssignableRoles` returns exactly the roles strictly below
the given role in the hierarchy `SUPER_ADMIN > TENANT_ADMIN > ORG_ADMIN >
IT_ADMIN > OFFICE_ADMIN > IT_TECHNICIAN > FINANCE > MANAGEMENT`, except
that the top two ranks receive every role but `SUPER_ADMIN`; any role
outside the hierarchy gets the empty list. -/
theorem getAssignableRoles_spec :
    getAssignableRoles "SUPER_ADMIN" =
      ["TENANT_ADMIN", "ORG_ADMIN", "IT_ADMIN", "OFFICE_ADMIN",
       "IT_TECHNICIAN", "FINANCE", "MANAGEMENT"] ∧
    getAssignableRoles "TENANT_ADMIN" =
      ["TENANT_ADMIN", "ORG_ADMIN", "IT_ADMIN", "OFFICE_ADMIN",
       "IT_TECHNICIAN", "FINANCE", "MANAGEMENT"] ∧
    getAssignableRoles "ORG_ADMIN" =
      ["IT_ADMIN", "OFFICE_ADMIN", "IT_TECHNICIAN", "FINANCE", "MANAGEMENT"] ∧
    getAssignableRoles "IT_ADMIN" =
      ["OFFICE_ADMIN", "IT_TECHNICIAN", "FINANCE", "MANAGEMENT"] ∧
    getAssignableRoles "OFFICE_ADMIN" = ["IT_TECHNICIAN", "FINANCE", "MANAGEMENT"] ∧
    getAssignableRoles "IT_TECHNICIAN" = ["FINANCE", "MANAGEMENT"] ∧
    getAssignableRoles "FINANCE" = ["MANAGEMENT"] ∧
    getAssignableRoles "MANAGEMENT" = [] ∧
    (∀ role, role ∉ roleHierarchy → getAssignableRoles role = []) := by
  refine ⟨by decide, by decide, by decide, by decide, by decide, by decide,
    by decide, by decide, fun role h => ?_⟩
  unfold getAssignableRoles
  rw [indexOfStr_eq_neg_one h]
  rfl

/-- Witness for C4: a role name outside the hierarchy satisfies the
hypothesis and gets the empty list. -/
theorem getAssignableRoles_spec_witness :
    "GUEST" ∉ roleHierarchy ∧ getAssignableRoles "GUEST" = [] :=
  ⟨by decide, getAssignableRoles_spec.2.2.2.2.2.2.2.2 "GUEST" (by decide)⟩

/-! ## Claim theorems: tenant precondition (`BaseService`) -/

/-- With no tenant bound, `buildBatch` throws the configuration error at
the first operation whose guards hold, and queues nothing at all when no
operation's guards hold. -/
theorem buildBatch_none (now : Nat) :
    ∀ (ops : List BatchOp) (n : Nat),
      (ops.any BatchOp.effective = true →
        buildBatch none now n ops = .error tenantConfigError) ∧
      (ops.any BatchOp.effective = false →
        buildBatch none now n ops = .ok ([], n)) := by
  intro ops
  induction ops with
  | nil => intro n; exact ⟨fun h => by simp at h, fun _ => rfl⟩
  | cons op rest ih =>
    intro n
    by_cases hc : op.type = "create"
    · cases hd : op.data with
      | none =>
        have heff : op.effective = false := by
          simp [BatchOp.effective, hd, hc]
        constructor
        · intro h
          simp only [List.any_cons, heff, Bool.false_or] at h
          rw [buildBatch, if_pos hc, hd]
          exact (ih n).1 h
        · intro h
          simp only [List.any_cons, heff, Bool.false_or] at h
          rw [buildBatch, if_pos hc, hd]
          exact (ih n).2 h
      | some d =>
        cases hu : op.userId with
        | none =>
          have heff : op.effective = false := by
            simp [BatchOp.effective, hd, hu, hc]
          constructor
          · intro h
            simp only [List.any_cons, heff, Bool.false_or] at h
            rw [buildBatch, if_pos hc, hd, hu]
            exact (ih n).1 h
          · intro h
            simp only [List.any_cons, heff, Bool.false_or] at h
            rw [buildBatch, if_pos hc, hd, hu]
            exact (ih n).2 h
        | some u =>
          have heff : op.effective = true := by
            simp [BatchOp.effective, hd, hu, hc]
          constructor
          · intro _; rw [buildBatch, if_pos hc, hd, hu]
          · intro h; simp [List.any_cons, heff] at h
    · by_cases hup : op.type = "update"
      · cases hi : op.id with
        | none =>
          have heff : op.effective = false := by
            simp [BatchOp.effective, hi, hc, hup]
          constructor
          · intro h
            simp only [List.any_cons, heff, Bool.false_or] at h
            rw [buildBatch, if_neg hc, if_pos hup, hi]
            exact (ih n).1 h
          · intro h
            simp only [List.any_cons, heff, Bool.false_or] at h
            rw [buildBatch, if_neg hc, if_pos hup, hi]
            exact (ih n).2 h
        | some i =>
          cases hd : op.data with
          | none =>
            have heff : op.effective = false := by
              simp [BatchOp.effective, hi, hd, hc, hup]
            constructor
            · intro h
              simp only [List.any_cons, heff, Bool.false_or] at h
              rw [buildBatch, if_neg hc, if_pos hup, hi, hd]
              exact (ih n).1 h
            · intro h
              simp only [List.any_cons, heff, Bool.false_or] at h
              rw [buildBatch, if_neg hc, if_pos hup, hi, hd]
              exact (ih n).2 h
          | some d =>
            cases hu : op.userId with
            | none =>
              have heff : op.effective = false := by
                simp [BatchOp.effective, hi, hd, hu, hc, hup]
              constructor
              · intro h
                simp only [List.any_cons, heff, Bool.false_or] at h
                rw [buildBatch, if_neg hc, if_pos hup, hi, hd, hu]
                exact (ih n).1 h
              · intro h
                simp only [List.any_cons, heff, Bool.false_or] at h
                rw [buildBatch, if_neg hc, if_pos hup, hi, hd, hu]
                exact (ih n).2 h
            | some u =>
              have heff : op.effective = true := by
                simp [BatchOp.effective, hi, hd, hu, hup]
              constructor
              · intro _; rw [buildBatch, if_neg hc, if_pos hup, hi, hd, hu]
              · intro h; simp [List.any_cons, heff] at h
      · by_cases hdel : op.type = "delete"
        · cases hi : op.id with
          | none =>
            have heff : op.effective = false := by
              simp [BatchOp.effective, hi, hc, hup, hdel]
            constructor
            · intro h
              simp only [List.any_cons, heff, Bool.false_or] at h
              rw [buildBatch, if_neg hc, if_neg hup, if_pos hdel, hi]
              exact (ih n).1 h
            · intro h
              simp only [List.any_cons, heff, Bool.false_or] at h
              rw [buildBatch, if_neg hc, if_neg hup, if_pos hdel, hi]
              exact (ih n).2 h
          | some i =>
            have heff : op.effective = true := by
              simp [BatchOp.effective, hi, hdel]
            constructor
            · intro _; rw [buildBatch, if_neg hc, if_neg hup, if_pos hdel, hi]
            · intro h; simp [List.any_cons, heff] at h
        · have heff : op.effective = false := by
            simp [BatchOp.effective, hc, hup, hdel]
          constructor
          · intro h
            simp only [List.any_cons, heff, Bool.false_or] at h
            rw [buildBatch, if_neg hc, if_neg hup, if_neg hdel]
            exact (ih n).1 h
          · intro h
            simp only [List.any_cons, heff, Bool.false_or] at h
            rw [buildBatch, if_neg hc, if_neg hup, if_neg hdel]
            exact (ih n).2 h

/-- **C2 (counterexample).** `batchWrite` called with an empty operation
list on an instance with no tenant bound does *not* fail: the loop body
never resolves a document reference, so the empty batch commits and the
call succeeds (performing no write). -/
theorem batchWrite_empty_noTenant_succeeds :
    noTenantState.batchWrite [] 0 = .ok noTenantState ∧
    noTenantState.batchWrite [] 0 ≠ .error tenantConfigError := by
  constructor
  · rfl
  · intro h
    rw [show noTenantState.batchWrite [] 0 = .ok noTenantState from rfl] at h
    exact Except.noConfusion h

/-- **C2 (amended).** With no tenant bound, `getById`, `getAll`, `create`,
`update` and `delete` all fail with the configuration error for every
argument, and `batchWrite` fails with it exactly when its operation list
contains at least one operation whose guards hold; a list with none —
the empty list in particular — commits an empty batch and succeeds,
leaving the store untouched. -/
theorem baseService_noTenant_ops_fail (s : BaseState) (h : s.tenantId = none) :
    (∀ id, s.getById id = .error tenantConfigError) ∧
    (∀ cs, s.getAll cs = .error tenantConfigError) ∧
    (∀ data userId now, s.create data userId now = .error tenantConfigError) ∧
    (∀ id data userId now, s.update id data userId now = .error tenantConfigError) ∧
    (∀ id, s.delete id = .error tenantConfigError) ∧
    (∀ ops now, ops.any BatchOp.effective = true →
        s.batchWrite ops now = .error tenantConfigError) ∧
    (∀ ops now, ops.any BatchOp.effective = false → s.batchWrite ops now = .ok s) := by
  refine ⟨fun id => ?_, fun cs => ?_, fun data userId now => ?_,
    fun id data userId now => ?_, fun id => ?_,
    fun ops now hany => ?_, fun ops now hany => ?_⟩
  · rw [BaseState.getById, h]
  · rw [BaseState.getAll, h]
  · rw [BaseState.create, h]
  · rw [BaseState.update, h]
  · rw [BaseState.delete, h]
  · rw [BaseState.batchWrite, h, (buildBatch_none now ops s.nextId).1 hany]
  · rw [BaseState.batchWrite, h, (buildBatch_none now ops s.nextId).2 hany, ← h]
    rfl

/-- Witness for C2 (amended): on a fresh instance, a read fails, a batch
holding one well-formed delete fails, and an empty batch succeeds. -/
theorem baseService_noTenant_ops_fail_witness :
    noTenantState.getById "a" = .error tenantConfigError ∧
    noTenantState.batchWrite [{ type := "delete", id := some "d" }] 3 =
      .error tenantConfigError ∧
    noTenantState.batchWrite [] 3 = .ok noTenantState :=
  ⟨(baseService_noTenant_ops_fail noTenantState rfl).1 "a",
   (baseService_noTenant_ops_fail noTenantState rfl).2.2.2.2.2.1 _ 3 (by decide),
   (baseService_noTenant_ops_fail noTenantState rfl).2.2.2.2.2.2 [] 3 (by decide)⟩

/-! ## Claim theorems: default sort order -/

/-- A query with no constraints returns the store in default order. -/
theorem evalQuery_nil (docs : List StoredDoc) : evalQuery docs [] = docs := by
  unfold evalQuery applyLimit applyOrder
  simp only [List.filterMap_nil]
  exact List.filter_eq_self.mpr fun a _ => rfl

/-- The comparison used for `orderBy('created_at', 'desc')` is exactly
descending creation time. -/
theorem docLe_created_desc (a b : StoredDoc) :
    docLe "created_at" "desc" a b = true ↔ b.created_at ≤ a.created_at := by
  simp [docLe, keyLeAsc]

/-- A result set ordered under a leading `orderBy('created_at', 'desc')`
is sorted by descending creation time. -/
theorem applyOrder_created_desc (cs : List QueryConstraint) (l : List StoredDoc)
    (h : ∃ rest, cs.filterMap orderKey = ("created_at", "desc") :: rest) :
    (applyOrder cs l).Pairwise fun a b => b.created_at ≤ a.created_at := by
  obtain ⟨rest, hor⟩ := h
  unfold applyOrder
  rw [hor]
  haveI : IsTotal StoredDoc (fun a b => docLe "created_at" "desc" a b = true) :=
    ⟨fun a b => by
      rw [docLe_created_desc, docLe_created_desc]
      exact Nat.le_total b.created_at a.created_at⟩
  haveI : IsTrans StoredDoc (fun a b => docLe "created_at" "desc" a b = true) :=
    ⟨fun a b c hab hbc => by
      rw [docLe_created_desc] at hab hbc ⊢
      exact Nat.le_trans hbc hab⟩
  have hs := List.sorted_insertionSort
    (fun a b : StoredDoc => docLe "created_at" "desc" a b = true) l
  exact hs.imp fun hab => (docLe_created_desc _ _).mp hab

/-- Truncation preserves sortedness. -/
theorem applyLimit_pairwise (cs : List QueryConstraint) (l : List StoredDoc)
    (h : l.Pairwise fun a b => b.created_at ≤ a.created_at) :
    (applyLimit cs l).Pairwise fun a b => b.created_at ≤ a.created_at := by
  unfold applyLimit
  cases cs.filterMap limitKey with
  | nil => exact h
  | cons n _ => exact List.Pairwise.sublist (List.take_sublist n l) h

/-- **C7 (counterexample).** `getAll` adds no default sort: a
constraint-free query over a store holding an older document before a
newer one returns the store order, which is not descending creation
time. -/
theorem getAll_no_default_sort_counterexample :
    twoDocState.getAll [] = .ok [docA, docB] ∧
    ¬ List.Pairwise (fun a b : StoredDoc => b.created_at ≤ a.created_at)
        [docA, docB] := by
  constructor
  · rw [BaseState.getAll]
    rw [show twoDocState.tenantId = some "t" from rfl, evalQuery_nil]
    rfl
  · intro h
    have := List.rel_of_pairwise_cons h (List.mem_singleton.mpr rfl)
    simp [docA, docB] at this

/-- **C7 (amended).** The default most-recently-created-first ordering
applies to `getPaginated` when `params.sort` is absent (its query gets
`orderBy('created_at', 'desc')` appended): every page it returns is
sorted by descending creation time. `getAll`, by contrast, issues the
caller's constraints verbatim and adds no default sort: with no
constraints it returns the store's default document-ID order
unchanged. -/
theorem defaultSort_paginated_not_getAll :
    (∀ (s : BaseState) (t : String) (params : QueryParams)
       (addl : List QueryConstraint) (resp : PaginatedResponse),
       s.tenantId = some t → params.sort = none → addl.filterMap orderKey = [] →
       s.getPaginated params addl = .ok resp →
       resp.data.Pairwise fun a b => b.created_at ≤ a.created_at) ∧
    (∀ (s : BaseState) (t : String), s.tenantId = some t → s.getAll [] = .ok s.docs) := by
  constructor
  · intro s t params addl resp ht hsort haddl hres
    rw [BaseState.getPaginated, ht, hsort] at hres
    have hdata := congrArg PaginatedResponse.data (Except.ok.inj hres)
    rw [← hdata]
    set cs := addl ++ [QueryConstraint.orderByField "created_at" "desc"] ++
      [QueryConstraint.limitTo (params.page_size.getD 25 + 1)] with hcs
    have hor : ∃ rest, cs.filterMap orderKey = ("created_at", "desc") :: rest := by
      refine ⟨[], ?_⟩
      rw [hcs]
      simp [List.filterMap_append, haddl, orderKey]
    have hsorted := applyLimit_pairwise cs _
      (applyOrder_created_desc cs (s.docs.filter (satisfiesFilters cs)) hor)
    exact List.Pairwise.sublist (List.take_sublist _ _) hsorted
  · intro s t ht
    rw [BaseState.getAll, ht, evalQuery_nil]

/-- Witness for C7 (amended): on the two-document store, `getPaginated`
with no sort returns newest-first while `getAll` returns store order. -/
theorem defaultSort_paginated_not_getAll_witness :
    (List.Pairwise (fun a b : StoredDoc => b.created_at ≤ a.created_at)
      [docB, docA]) ∧
    twoDocState.getAll [] = .ok [docA, docB] :=
  ⟨defaultSort_paginated_not_getAll.1 twoDocState "t" {} []
      { data := [docB, docA], total := 0, page := 1, page_size := 25, has_more := false }
      rfl rfl rfl rfl,
   defaultSort_paginated_not_getAll.2 twoDocState "t" rfl⟩

/-! ## Claim theorems: audit log append-only -/

/-- `log` either throws (leaving the collection as it was) or appends one
entry; it never removes or rewrites existing entries. -/
theorem log_getD_logs_extend (s : AuditState) (p : LogParams) (now : Nat) :
    ∃ rest, (((s.log p now).toOption).getD s).logs = s.logs ++ rest := by
  unfold AuditState.log
  cases htid : s.tenantId with
  | none => exact ⟨[], (List.append_nil s.logs).symm⟩
  | some t => exact ⟨_, rfl⟩

/-- Every single operation of the audit log service only ever extends the
entry sequence. -/
theorem auditStep_logs_extend (s : AuditState) (op : AuditOp) :
    ∃ rest, (s.step op).logs = s.logs ++ rest := by
  cases op with
  | setTenant t => exact ⟨[], (List.append_nil s.logs).symm⟩
  | log p now => exact log_getD_logs_extend s p now
  | logCreate m et eid en uid uem unm org now => exact log_getD_logs_extend s _ now
  | logUpdate m et eid en chs uid uem unm org now => exact log_getD_logs_extend s _ now
  | logDelete m et eid en uid uem unm org now => exact log_getD_logs_extend s _ now
  | logAssign et eid en assignedTo uid uem unm org now => exact log_getD_logs_extend s _ now
  | logTransfer et eid en fromO toO uid uem unm org now => exact log_getD_logs_extend s _ now
  | logLogin uid uem unm org ip ua now => exact log_getD_logs_extend s _ now
  | logLogout uid uem unm org now => exact log_getD_logs_extend s _ now
  | logExport m et count uid uem unm org now => exact log_getD_logs_extend s _ now
  | getLogs p => exact ⟨[], (List.append_nil s.logs).symm⟩
  | getEntityLogs et eid => exact ⟨[], (List.append_nil s.logs).symm⟩
  | getUserActivity uid days => exact ⟨[], (List.append_nil s.logs).symm⟩

/-- **C6.** The audit log is append-only: every operation of the audit
log service, and hence every sequence of operations, extends the entry
sequence — the prior sequence is an initial segment of the posterior one,
so an entry once written is never updated or deleted. -/
theorem auditLog_append_only :
    (∀ (s : AuditState) (op : AuditOp), ∃ rest, (s.step op).logs = s.logs ++ rest) ∧
    (∀ (s : AuditState) (ops : List AuditOp),
       ∃ rest, (s.run ops).logs = s.logs ++ rest) := by
  refine ⟨auditStep_logs_extend, fun s ops => ?_⟩
  induction ops generalizing s with
  | nil => exact ⟨[], (List.append_nil s.logs).symm⟩
  | cons op rest ih =>
    obtain ⟨r1, h1⟩ := auditStep_logs_extend s op
    obtain ⟨r2, h2⟩ := ih (s.step op)
    refine ⟨r1 ++ r2, ?_⟩
    show (AuditState.run (s.step op) rest).logs = s.logs ++ (r1 ++ r2)
    rw [h2, h1, List.append_assoc]

/-! ## Claim theorems: maintenance ticket start time -/

/-- **C8 (counterexample).** `assign` moves an open ticket to
`in_progress` without recording `started_at`: a ticket can be in
`in_progress` with no start time, contradicting the claim that both
`assign` and `startWork` stamp it. -/
theorem assign_in_progress_without_started_at :
    (openTicket.assign "tech1" "admin" 5).status = "in_progress" ∧
    (openTicket.assign "tech1" "admin" 5).started_at = none :=
  ⟨rfl, rfl⟩

/-- **C8 (amended).** Only `startWork` records `started_at` on entry into
`in_progress`; `assign` also sets the status to `in_progress` but leaves
`started_at` untouched (it stamps `assigned_at` instead), so a ticket
moved to `in_progress` by `assign` alone need not have `started_at`
set. -/
theorem startWork_only_stamps_started_at (t : Ticket)
    (technicianId assignedBy userId : String) (now : Nat) :
    ((t.startWork userId now).status = "in_progress" ∧
     (t.startWork userId now).started_at = some now) ∧
    ((t.assign technicianId assignedBy now).status = "in_progress" ∧
     (t.assign technicianId assignedBy now).started_at = t.started_at ∧
     (t.assign technicianId assignedBy now).assigned_at = some now) :=
  ⟨⟨rfl, rfl⟩, ⟨rfl, rfl, rfl⟩⟩

/-! ## Claim theorems: asset transfer -/

/-- Rewriting the (unique-position) match of `find?` through an
id-preserving conditional update: the first match is updated in place. -/
theorem find?_update_of_found (l : List Asset) (assetId : String) (g : Asset → Asset)
    (hg : ∀ a, (g a).id = a.id) (a₀ : Asset)
    (h : l.find? (fun a => a.id = assetId) = some a₀) :
    (l.map fun a => if a.id = assetId then g a else a).find?
      (fun a => a.id = assetId) = some (g a₀) := by
  induction l with
  | nil => simp at h
  | cons b bs ih =>
    by_cases hb : b.id = assetId
    · rw [List.find?_cons_of_pos _ (by simp [hb])] at h
      obtain rfl : b = a₀ := Option.some.inj h
      rw [List.map_cons, if_pos hb]
      exact List.find?_cons_of_pos _ (by simp [hg, hb])
    · rw [List.find?_cons_of_neg _ (by simp [hb])] at h
      rw [List.map_cons, if_neg hb]
      rw [List.find?_cons_of_neg _ (by simp [hb])]
      exact ih h

/-- **C5.** Whenever `transferToOffice` succeeds, the transferred asset
ends at the target office with its assignment cleared and status
`available` — whatever it was assigned to and whatever its status before
— and the same atomic batch appends a `transferred` event recording the
old and the new office. -/
theorem transferToOffice_resets_assignment (s s' : AssetState)
    (assetId toOfficeId transferredBy : String) (notes : Option String) (now : Nat)
    (h : s.transferToOffice assetId toOfficeId transferredBy notes now = .ok s') :
    ∃ asset, s.findAsset assetId = some asset ∧
      s'.findAsset assetId = some { asset with
                                    office_id := toOfficeId,
                                    assigned_to := none,
                                    assigned_at := none,
                                    status := "available",
                                    updated_at := now,
                                    updated_by := transferredBy } ∧
      s'.events = s.events ++ [{ asset_id := assetId,
                                 event_type := "transferred",
                                 description :=
                                   notes.getD "Asset transferred to another office",
                                 from_office_id := some asset.office_id,
                                 to_office_id := some toOfficeId,
                                 created_at := now,
                                 created_by := transferredBy }] := by
  unfold AssetState.transferToOffice at h
  cases htid : s.tenantId with
  | none => rw [htid] at h; exact absurd h (by simp)
  | some t =>
    rw [htid] at h
    cases hfind : s.findAsset assetId with
    | none => rw [hfind] at h; exact absurd h (by simp)
    | some asset =>
      rw [hfind] at h
      obtain rfl := (Except.ok.inj h).symm
      exact ⟨asset, rfl,
        find?_update_of_found s.assets assetId
          (fun a => { a with office_id := toOfficeId, assigned_to := none,
                             assigned_at := none, status := "available",
                             updated_at := now, updated_by := transferredBy })
          (fun a => rfl) asset hfind, rfl⟩

/-- Witness for C5: transferring an in-use, user-assigned asset lands it
available and unassigned in the new office, with the transfer event
appended. -/
theorem transferToOffice_resets_assignment_witness :
    ∃ asset, assetStateW.findAsset "a1" = some asset ∧
      assetStateW'.findAsset "a1" = some { asset with
                                           office_id := "o2",
                                           assigned_to := none,
                                           assigned_at := none,
                                           status := "available",
                                           updated_at := 9,
                                           updated_by := "admin" } ∧
      assetStateW'.events = assetStateW.events ++
        [{ asset_id := "a1",
           event_type := "transferred",
           description := "Asset transferred to another office",
           from_office_id := some asset.office_id,
           to_office_id := some "o2",
           created_at := 9,
           created_by := "admin" }] :=
  transferToOffice_resets_assignment assetStateW assetStateW' "a1" "o2" "admin" none 9 rfl

/-! ## Claim theorems: insufficient stock -/

/-- **C3.** A stock issue whose office/consumable has no stock record, or
whose tracked balance is below the requested quantity, is rejected with
the `Insufficient stock` error — the call returns the error and no
successor state, so the balance stays unchanged and no stock transaction
record is created (the decrement and the transaction are queued on one
atomic batch that is never committed). A transfer with an insufficient
source-office balance is rejected the same way, with the
`Insufficient stock in source office` variant of the error. -/
theorem stock_insufficient_rejected :
    (∀ (s : StockState) (t officeId consumableId issuedTo userId : String)
       (q : Int) (notes : Option String) (now : Nat),
       s.tenantId = some t →
       (s.getConsumableStock officeId consumableId = none ∨
        ∃ st, s.getConsumableStock officeId consumableId = some st ∧ st.quantity < q) →
       s.issue officeId consumableId q issuedTo userId notes now =
         .error "Insufficient stock") ∧
    (∀ (s : StockState) (t fromOfficeId toOfficeId consumableId userId : String)
       (q : Int) (notes : Option String) (now : Nat),
       s.tenantId = some t →
       (s.getConsumableStock fromOfficeId consumableId = none ∨
        ∃ st, s.getConsumableStock fromOfficeId consumableId = some st ∧
          st.quantity < q) →
       s.transfer fromOfficeId toOfficeId consumableId q userId notes now =
         .error "Insufficient stock in source office") := by
  constructor
  · intro s t officeId consumableId issuedTo userId q notes now ht hcase
    unfold StockState.issue
    rw [ht]
    rcases hcase with hnone | ⟨st, hst, hlt⟩
    · rw [hnone]
    · rw [hst]
      exact if_pos hlt
  · intro s t fromOfficeId toOfficeId consumableId userId q notes now ht hcase
    unfold StockState.transfer
    rw [ht]
    rcases hcase with hnone | ⟨st, hst, hlt⟩
    · rw [hnone]
    · rw [hst]
      exact if_pos hlt

/-- Witness for C3: issuing 10 against a balance of 5 fails, and a
transfer out of an office with no stock record fails. -/
theorem stock_insufficient_rejected_witness :
    stockStateW.issue "o1" "c1" 10 "emp1" "u1" none 7 = .error "Insufficient stock" ∧
    stockStateW.transfer "o2" "o1" "c1" 1 "u1" none 7 =
      .error "Insufficient stock in source office" :=
  ⟨stock_insufficient_rejected.1 stockStateW "t" "o1" "c1" "emp1" "u1" 10 none 7 rfl
      (Or.inr ⟨{ id := "s1", office_id := "o1", consumable_id := "c1", quantity := 5 },
        rfl, by decide⟩),
   stock_insufficient_rejected.2 stockStateW "t" "o2" "o1" "c1" "u1" 1 none 7 rfl
      (Or.inl rfl)⟩

end Tenaxis
